import Mathlib

/-
  Verification development for the everything-sdk-rs repository.

  The repository wraps an opaque, single-state search engine reached through a
  C foreign interface (src/src/raw.rs) and exposes a safe layer on top of it
  (src/src/ergo.rs).  The engine itself is external; its behaviour is modelled
  here from the documented contracts in the raw.rs doc comments, while every
  function of the ergo and raw layers is translated directly from the Rust
  source.  Machine integers are modelled as Nat (all relevant values are u32
  or u64 and no arithmetic here can overflow except where noted); wide strings
  are modelled as List Char; fallible calls return an explicit result type
  that also records the panicking control paths of the source.
-/

set_option autoImplicit false

namespace EverythingSdk

/-! ### Constants (everything-sdk-sys/src/bindings.rs) -/

def EVERYTHING_REQUEST_FILE_NAME : Nat := 0x00000001
def EVERYTHING_REQUEST_PATH : Nat := 0x00000002
def EVERYTHING_REQUEST_FULL_PATH_AND_FILE_NAME : Nat := 0x00000004
def EVERYTHING_REQUEST_EXTENSION : Nat := 0x00000008
def EVERYTHING_REQUEST_SIZE : Nat := 0x00000010
def EVERYTHING_REQUEST_DATE_CREATED : Nat := 0x00000020
def EVERYTHING_REQUEST_DATE_MODIFIED : Nat := 0x00000040
def EVERYTHING_REQUEST_DATE_ACCESSED : Nat := 0x00000080
def EVERYTHING_REQUEST_ATTRIBUTES : Nat := 0x00000100
def EVERYTHING_REQUEST_FILE_LIST_FILE_NAME : Nat := 0x00000200
def EVERYTHING_REQUEST_RUN_COUNT : Nat := 0x00000400
def EVERYTHING_REQUEST_DATE_RUN : Nat := 0x00000800
def EVERYTHING_REQUEST_DATE_RECENTLY_CHANGED : Nat := 0x00001000
def EVERYTHING_REQUEST_HIGHLIGHTED_FILE_NAME : Nat := 0x00002000
def EVERYTHING_REQUEST_HIGHLIGHTED_PATH : Nat := 0x00004000
def EVERYTHING_REQUEST_HIGHLIGHTED_FULL_PATH_AND_FILE_NAME : Nat := 0x00008000

/-- RequestFlags::default() in raw.rs: FILE_NAME ||| PATH = 3. -/
def defaultRequestFlags : Nat :=
  EVERYTHING_REQUEST_FILE_NAME ||| EVERYTHING_REQUEST_PATH

/-- SortType::default() in raw.rs: EVERYTHING_SORT_NAME_ASCENDING = 1. -/
def defaultSortType : Nat := 1

def u32MAX : Nat := 4294967295

/-! ### helper module (ergo.rs lines 58-73) -/

def is_default_request_flags (request_flags : Nat) : Bool :=
  request_flags == defaultRequestFlags

def is_default_sort_type (sort_type : Nat) : Bool :=
  sort_type == defaultSortType

/-- when send IPC query, try version 2 first (if we specified some non-version 1
request flags or sort) -- ergo.rs lines 70-72. -/
def should_use_query_version_2 (request_flags : Nat) (sort_type : Nat) : Bool :=
  !is_default_request_flags request_flags || !is_default_sort_type sort_type

/-! ### Error types (ergo.rs error module) -/

inductive InvalidRequestError where
  | RequestFlagsNotSet (flags : Nat)
deriving DecidableEq

inductive EverythingError where
  | Memory
  | Ipc
  | RegisterClassEx
  | CreateWindow
  | CreateThread
  | InvalidIndex
  | InvalidCall
  | InvalidRequest (e : InvalidRequestError)
  | InvalidParameter
  | UnsupportedInQueryVersion2
deriving DecidableEq

/-- Outcome of a call in the safe layer: a Rust Result value, or a panic of the
calling thread (assert failures, unwrap on None, unreachable branches). -/
inductive CallResult (α : Type) where
  | ok (a : α)
  | err (e : EverythingError)
  | panicked
deriving DecidableEq

/-- The foreign entry points of raw.rs that the claims observe.  Each ergo
operation below also returns the list of foreign calls it performed, so that
statements of the form "the underlying foreign call is never invoked" can be
expressed. -/
inductive RawCall where
  | reset
  | getResultListRequestFlags
  | getResultListSort
  | getNumFileResults
  | getNumFolderResults
  | getNumResults
  | getTotFileResults
  | getTotFolderResults
  | getResultFileName
  | getResultPath
  | getResultFullPathNameSizeHint
  | getResultFullPathName
  | getResultExtension
  | getResultSize
  | isFolderResult
  | getResultDateCreated
  | getResultDateModified
  | getResultDateAccessed
  | getResultAttributes
  | getResultFileListFileName
  | getResultRunCount
  | getResultDateRun
  | getResultDateRecentlyChanged
  | getResultHighlightedFileName
  | getResultHighlightedPath
  | getResultHighlightedFullPathAndFileName
deriving DecidableEq

/-- LastError enum of raw.rs (lines 441-452). -/
inductive LastError where
  | EVERYTHING_OK
  | EVERYTHING_ERROR_MEMORY
  | EVERYTHING_ERROR_IPC
  | EVERYTHING_ERROR_REGISTERCLASSEX
  | EVERYTHING_ERROR_CREATEWINDOW
  | EVERYTHING_ERROR_CREATETHREAD
  | EVERYTHING_ERROR_INVALIDINDEX
  | EVERYTHING_ERROR_INVALIDCALL
  | EVERYTHING_ERROR_INVALIDREQUEST
  | EVERYTHING_ERROR_INVALIDPARAMETER
deriving DecidableEq

/-- Outcome of a raw.rs wrapper whose Rust return type is Option, but whose
body can also hit an unreachable branch: Some becomes ok, None becomes
ipcFail, the unreachable branch becomes defect. -/
inductive RawOutcome (α : Type) where
  | ok (a : α)
  | ipcFail
  | defect
deriving DecidableEq

/-- zero_or_ipc_error (raw.rs lines 70-81): check if IPC Error occurred when
the u32 number is 0.  The engine counter value is the first argument; the
engine last-error state read immediately after is the second. -/
def zero_or_ipc_error (n : Nat) (lastErr : LastError) : RawOutcome Nat :=
  if n = 0 then
    match lastErr with
    | .EVERYTHING_OK => .ok 0
    | .EVERYTHING_ERROR_IPC => .ipcFail
    | _ => .defect
  else
    .ok n

/-- The .ok_or(EverythingError::Ipc) translation used by the ergo layer on the
raw Option results (a defect stays a panic of the process). -/
def ok_or_ipc (r : RawOutcome Nat) : CallResult Nat :=
  match r with
  | .ok v => .ok v
  | .ipcFail => .err .Ipc
  | .defect => .panicked

/-- EverythingGlobal::get_run_count (ergo.rs lines 218-220) over the raw
Everything_GetRunCountFromFileName contract (raw.rs lines 1800-1805): the raw
engine counter value n and the last-error state are the inputs. -/
def get_run_count (n : Nat) (lastErr : LastError) : CallResult Nat :=
  ok_or_ipc (zero_or_ipc_error n lastErr)

/-- EverythingGlobal::get_major_version (ergo.rs 126-128) over raw.rs 1407-1409. -/
def get_major_version (n : Nat) (lastErr : LastError) : CallResult Nat :=
  ok_or_ipc (zero_or_ipc_error n lastErr)

/-- EverythingGlobal::get_minor_version (ergo.rs 130-132) over raw.rs 1424-1426. -/
def get_minor_version (n : Nat) (lastErr : LastError) : CallResult Nat :=
  ok_or_ipc (zero_or_ipc_error n lastErr)

/-- EverythingGlobal::get_revision (ergo.rs 134-136) over raw.rs 1441-1443. -/
def get_revision (n : Nat) (lastErr : LastError) : CallResult Nat :=
  ok_or_ipc (zero_or_ipc_error n lastErr)

/-- EverythingGlobal::get_build_number (ergo.rs 138-140) over raw.rs 1458-1460. -/
def get_build_number (n : Nat) (lastErr : LastError) : CallResult Nat :=
  ok_or_ipc (zero_or_ipc_error n lastErr)

/-! ### The engine search state and the reset semantics -/

/-- The search parameter state held inside the opaque engine library
(one process-wide copy).  Field list follows the setters of raw.rs. -/
structure SearchState where
  search : List Char
  matchPath : Bool
  matchCase : Bool
  matchWholeWord : Bool
  regex : Bool
  maxResults : Nat
  offset : Nat
  sortType : Nat
  requestFlags : Nat
  replyWindow : Nat
  replyId : Nat
deriving DecidableEq

/-- Everything_Reset, modelled from its documented contract in raw.rs lines
1360-1379: resets the search state to the default state.  The documented
default-state list covers search text, the four match switches, max, offset,
reply window and reply id; sort and request flags are not in that list and
are left unchanged. -/
def Everything_Reset (s : SearchState) : SearchState :=
  { s with
    search := []
    matchPath := false
    matchCase := false
    matchWholeWord := false
    regex := false
    maxResults := u32MAX
    offset := 0
    replyWindow := 0
    replyId := 0 }

/-- Drop for EverythingSearcher (ergo.rs lines 256-261): calls
raw::Everything_Reset and nothing else. -/
def searcherDrop (s : SearchState) : SearchState × List RawCall :=
  (Everything_Reset s, [RawCall.reset])

/-- Drop for EverythingResults (ergo.rs lines 595-601): the body only emits a
debug log line; no foreign call is made and the engine state is untouched. -/
def resultsDrop (s : SearchState) : SearchState × List RawCall :=
  (s, [])

/-! ### The result list state and the EverythingResults accessors
    (ergo.rs lines 590-680) -/

/-- The result list state held inside the opaque engine after a query; the
EverythingResults handle in ergo.rs is a phantom borrow of this state.  The
fulfilled flags and sort come from Everything_GetResultListRequestFlags and
Everything_GetResultListSort; the counters from the six count getters. -/
structure EverythingResults where
  fulfilledFlags : Nat
  fulfilledSort : Nat
  numFileResults : Nat
  numFolderResults : Nat
  numResults : Nat
  totFileResults : Nat
  totFolderResults : Nat
  totResults : Nat
deriving DecidableEq

/-- EverythingResults::request_flags (ergo.rs 622-624): reads the fulfilled
request flags of the result list from the engine. -/
def EverythingResults.request_flags (r : EverythingResults) : Nat :=
  r.fulfilledFlags

/-- EverythingResults::sort_type (ergo.rs 626-628). -/
def EverythingResults.sort_type (r : EverythingResults) : Nat :=
  r.fulfilledSort

/-- EverythingResults::is_query_version_2 (ergo.rs 630-632). -/
def EverythingResults.is_query_version_2 (r : EverythingResults) : Bool :=
  should_use_query_version_2 r.request_flags r.sort_type

/-- EverythingResults::num_files (ergo.rs 634-641).  The two calls reading
the result list flags and sort happen in both branches; the count getter is
reached only in the else branch. -/
def EverythingResults.num_files (r : EverythingResults) :
    CallResult Nat × List RawCall :=
  if r.is_query_version_2 then
    (.err .UnsupportedInQueryVersion2,
      [.getResultListRequestFlags, .getResultListSort])
  else
    (.ok r.numFileResults,
      [.getResultListRequestFlags, .getResultListSort, .getNumFileResults])

/-- EverythingResults::num_folders (ergo.rs 643-650). -/
def EverythingResults.num_folders (r : EverythingResults) :
    CallResult Nat × List RawCall :=
  if r.is_query_version_2 then
    (.err .UnsupportedInQueryVersion2,
      [.getResultListRequestFlags, .getResultListSort])
  else
    (.ok r.numFolderResults,
      [.getResultListRequestFlags, .getResultListSort, .getNumFolderResults])

/-- EverythingResults::total_files (ergo.rs 658-665). -/
def EverythingResults.total_files (r : EverythingResults) :
    CallResult Nat × List RawCall :=
  if r.is_query_version_2 then
    (.err .UnsupportedInQueryVersion2,
      [.getResultListRequestFlags, .getResultListSort])
  else
    (.ok r.totFileResults,
      [.getResultListRequestFlags, .getResultListSort, .getTotFileResults])

/-- EverythingResults::total_folders (ergo.rs 667-674). -/
def EverythingResults.total_folders (r : EverythingResults) :
    CallResult Nat × List RawCall :=
  if r.is_query_version_2 then
    (.err .UnsupportedInQueryVersion2,
      [.getResultListRequestFlags, .getResultListSort])
  else
    (.ok r.totFolderResults,
      [.getResultListRequestFlags, .getResultListSort, .getTotFolderResults])

/-- EverythingResults::num (ergo.rs 653-656). -/
def EverythingResults.num (r : EverythingResults) : Nat :=
  r.numResults

/-- EverythingResults::len (ergo.rs 605-607). -/
def EverythingResults.len (r : EverythingResults) : Nat :=
  r.num

/-! ### Result items and the iterator (ergo.rs lines 682-747) -/

/-- EverythingItem (ergo.rs 682-687): a positional index plus the snapshot of
the fulfilled request flags taken from the iterator that produced it. -/
structure EverythingItem where
  index : Nat
  request_flags : Nat
deriving DecidableEq

/-- Iter (ergo.rs 689-695). -/
structure Iter where
  next_index : Nat
  length : Nat
  request_flags : Nat
deriving DecidableEq

/-- Iterator::next for Iter (ergo.rs 699-711); returns the yielded item and
the advanced iterator. -/
def Iter.next (it : Iter) : Option EverythingItem × Iter :=
  if it.next_index < it.length then
    (some ⟨it.next_index, it.request_flags⟩,
      { it with next_index := it.next_index + 1 })
  else
    (none, it)

/-- Iterator::nth for Iter (ergo.rs 718-731).  In the source the index is
next_index + n over u32; for the uses in this file next_index = 0 and n is a
u32 index, so Nat addition is exact. -/
def Iter.nth (it : Iter) (n : Nat) : Option EverythingItem × Iter :=
  let index := it.next_index + n
  if index < it.length then
    (some ⟨index, it.request_flags⟩, { it with next_index := index + 1 })
  else
    (none, { it with next_index := it.length })

/-- EverythingResults::iter (ergo.rs 613-620). -/
def EverythingResults.iter (r : EverythingResults) : Iter :=
  ⟨0, r.len, r.request_flags⟩

/-- EverythingResults::at (ergo.rs 609-611): self.iter().nth(index). -/
def EverythingResults.at (r : EverythingResults) (index : Nat) :
    Option EverythingItem :=
  (r.iter.nth index).1

/-- Repeated consumption of the iterator through next, with the remaining
step count as fuel (the iterator advances next_index towards length, so
length - next_index steps suffice). -/
def Iter.toListAux : Nat → Iter → List EverythingItem
  | 0, _ => []
  | fuel + 1, it =>
    match it.next with
    | (none, _) => []
    | (some x, it2) => x :: Iter.toListAux fuel it2

/-- The full sequence of items yielded by the iterator. -/
def Iter.toList (it : Iter) : List EverythingItem :=
  Iter.toListAux (it.length - it.next_index) it

/-! ### Per-item engine data and the field accessors (ergo.rs 749-908) -/

/-- The engine-side data of one visible result item, modelled from the raw.rs
result accessors for a stable result list (the raw getters for a visible
index return the stored datum).  Text is a list of wide characters. -/
structure ItemData where
  isFolder : Bool
  filename : List Char
  path : List Char
  fullPath : List Char
  extension : List Char
  fileListFilename : List Char
  hlFilename : List Char
  hlPath : List Char
  hlFullPath : List Char
  fileSize : Nat
  dateCreated : Nat
  dateModified : Nat
  dateAccessed : Nat
  attrBits : Nat
  runCount : Nat
  dateRun : Nat
  dateRecentlyChanged : Nat
deriving DecidableEq

/-- Everything_GetResultSize, modelled from the NOTE in raw.rs lines 997-999:
with EVERYTHING_REQUEST_ATTRIBUTES set the engine reports 0 for a folder,
without it the engine reports -1 for a folder; for a file it reports the
(nonnegative) file size. -/
def rawResultSize (d : ItemData) (flags : Nat) : Int :=
  if d.isFolder then
    if flags &&& EVERYTHING_REQUEST_ATTRIBUTES = EVERYTHING_REQUEST_ATTRIBUTES
    then 0 else -1
  else
    (d.fileSize : Int)

/-- Everything_GetResultFullPathNameSizeHint (raw.rs 895-906): the probe call
with a null buffer reports the character count L excluding the terminator;
the wrapper returns None when that count is 0, else L + 1. -/
def rawFullPathNameSizeHint (L : Nat) : Option Nat :=
  if L = 0 then none else some (L + 1)

/-- Everything_GetResultFullPathName (raw.rs 851-859) for a stored full path
of length L and a caller buffer of bufLen characters: per the documented
contract the text is truncated to the buffer and null terminated, and the
call reports the number of characters copied excluding the terminator; the
wrapper returns None when that number is 0 (NonZeroU32). -/
def rawFullPathNameFill (L : Nat) (bufLen : Nat) : Option Nat :=
  let copied := if bufLen = 0 then 0 else min L (bufLen - 1)
  if copied = 0 then none else some copied

/-- EverythingItem::need_flags_set (ergo.rs 814-822): check if the
corresponding flags are set in the snapshot bitmask (bitflags contains:
self.bits AND flags.bits equals flags.bits). -/
def EverythingItem.need_flags_set (it : EverythingItem) (flags : Nat) :
    CallResult Unit :=
  if it.request_flags &&& flags = flags then
    .ok ()
  else
    .err (.InvalidRequest (.RequestFlagsNotSet flags))

/-- EverythingItem::filename (ergo.rs 766-769). -/
def EverythingItem.filename (it : EverythingItem) (d : ItemData) :
    CallResult (List Char) × List RawCall :=
  match it.need_flags_set EVERYTHING_REQUEST_FILE_NAME with
  | .ok _ => (.ok d.filename, [.getResultFileName])
  | .err e => (.err e, [])
  | .panicked => (.panicked, [])

/-- EverythingItem::path (ergo.rs 771-774). -/
def EverythingItem.path (it : EverythingItem) (d : ItemData) :
    CallResult (List Char) × List RawCall :=
  match it.need_flags_set EVERYTHING_REQUEST_PATH with
  | .ok _ => (.ok d.path, [.getResultPath])
  | .err e => (.err e, [])
  | .panicked => (.panicked, [])

/-- EverythingItem::filepath (ergo.rs 781-792): checks PATH and FILE_NAME,
probes the buffer size, allocates exactly that size, fills, and asserts the
reported fill length is one less than the probe. -/
def EverythingItem.filepath (it : EverythingItem) (d : ItemData) :
    CallResult (List Char) × List RawCall :=
  match it.need_flags_set
      (EVERYTHING_REQUEST_PATH ||| EVERYTHING_REQUEST_FILE_NAME) with
  | .err e => (.err e, [])
  | .panicked => (.panicked, [])
  | .ok _ =>
    match rawFullPathNameSizeHint d.fullPath.length with
    | none => (.panicked, [.getResultFullPathNameSizeHint])
    | some buf_len =>
      match rawFullPathNameFill d.fullPath.length buf_len with
      | none =>
        (.panicked, [.getResultFullPathNameSizeHint, .getResultFullPathName])
      | some n_wchar =>
        if buf_len = n_wchar + 1 then
          (.ok (d.fullPath.take n_wchar),
            [.getResultFullPathNameSizeHint, .getResultFullPathName])
        else
          (.panicked, [.getResultFullPathNameSizeHint, .getResultFullPathName])

/-- EverythingItem::full_path_name (ergo.rs 801-811): like filepath but the
buffer is capped at max_len (u32::MAX when None), and the assert compares the
reported fill length against the uncapped size hint. -/
def EverythingItem.full_path_name (it : EverythingItem) (max_len : Option Nat)
    (d : ItemData) : CallResult (List Char) × List RawCall :=
  match it.need_flags_set EVERYTHING_REQUEST_FULL_PATH_AND_FILE_NAME with
  | .err e => (.err e, [])
  | .panicked => (.panicked, [])
  | .ok _ =>
    match rawFullPathNameSizeHint d.fullPath.length with
    | none => (.panicked, [.getResultFullPathNameSizeHint])
    | some size_hint =>
      let buf_len := min size_hint (max_len.getD u32MAX)
      match rawFullPathNameFill d.fullPath.length buf_len with
      | none =>
        (.panicked, [.getResultFullPathNameSizeHint, .getResultFullPathName])
      | some n_wchar =>
        if size_hint = n_wchar + 1 then
          (.ok (d.fullPath.take n_wchar),
            [.getResultFullPathNameSizeHint, .getResultFullPathName])
        else
          (.panicked, [.getResultFullPathNameSizeHint, .getResultFullPathName])

/-- EverythingItem::extension (ergo.rs 824-827). -/
def EverythingItem.extension (it : EverythingItem) (d : ItemData) :
    CallResult (List Char) × List RawCall :=
  match it.need_flags_set EVERYTHING_REQUEST_EXTENSION with
  | .ok _ => (.ok d.extension, [.getResultExtension])
  | .err e => (.err e, [])
  | .panicked => (.panicked, [])

/-- EverythingItem::size (ergo.rs 829-852): u64::try_from on the signed raw
size succeeds iff the raw size is nonnegative; on the negative branch the
code consults Everything_IsFolderResult and maps the folder sentinel to 0,
while a negative size for a non-folder panics. -/
def EverythingItem.size (it : EverythingItem) (d : ItemData) :
    CallResult Nat × List RawCall :=
  match it.need_flags_set EVERYTHING_REQUEST_SIZE with
  | .err e => (.err e, [])
  | .panicked => (.panicked, [])
  | .ok _ =>
    let file_size := rawResultSize d it.request_flags
    if 0 ≤ file_size then
      (.ok file_size.toNat, [.getResultSize])
    else if d.isFolder then
      (.ok 0, [.getResultSize, .isFolderResult])
    else
      (.panicked, [.getResultSize, .isFolderResult])

/-- EverythingItem::date_created (ergo.rs 854-857). -/
def EverythingItem.date_created (it : EverythingItem) (d : ItemData) :
    CallResult Nat × List RawCall :=
  match it.need_flags_set EVERYTHING_REQUEST_DATE_CREATED with
  | .ok _ => (.ok d.dateCreated, [.getResultDateCreated])
  | .err e => (.err e, [])
  | .panicked => (.panicked, [])

/-- EverythingItem::date_modified (ergo.rs 859-862). -/
def EverythingItem.date_modified (it : EverythingItem) (d : ItemData) :
    CallResult Nat × List RawCall :=
  match it.need_flags_set EVERYTHING_REQUEST_DATE_MODIFIED with
  | .ok _ => (.ok d.dateModified, [.getResultDateModified])
  | .err e => (.err e, [])
  | .panicked => (.panicked, [])

/-- EverythingItem::date_accessed (ergo.rs 864-867). -/
def EverythingItem.date_accessed (it : EverythingItem) (d : ItemData) :
    CallResult Nat × List RawCall :=
  match it.need_flags_set EVERYTHING_REQUEST_DATE_ACCESSED with
  | .ok _ => (.ok d.dateAccessed, [.getResultDateAccessed])
  | .err e => (.err e, [])
  | .panicked => (.panicked, [])

/-- EverythingItem::attributes (ergo.rs 869-872). -/
def EverythingItem.attributes (it : EverythingItem) (d : ItemData) :
    CallResult Nat × List RawCall :=
  match it.need_flags_set EVERYTHING_REQUEST_ATTRIBUTES with
  | .ok _ => (.ok d.attrBits, [.getResultAttributes])
  | .err e => (.err e, [])
  | .panicked => (.panicked, [])

/-- EverythingItem::file_list_filename (ergo.rs 874-877). -/
def EverythingItem.file_list_filename (it : EverythingItem) (d : ItemData) :
    CallResult (List Char) × List RawCall :=
  match it.need_flags_set EVERYTHING_REQUEST_FILE_LIST_FILE_NAME with
  | .ok _ => (.ok d.fileListFilename, [.getResultFileListFileName])
  | .err e => (.err e, [])
  | .panicked => (.panicked, [])

/-- EverythingItem::run_count (ergo.rs 879-882). -/
def EverythingItem.run_count (it : EverythingItem) (d : ItemData) :
    CallResult Nat × List RawCall :=
  match it.need_flags_set EVERYTHING_REQUEST_RUN_COUNT with
  | .ok _ => (.ok d.runCount, [.getResultRunCount])
  | .err e => (.err e, [])
  | .panicked => (.panicked, [])

/-- EverythingItem::date_run (ergo.rs 884-887). -/
def EverythingItem.date_run (it : EverythingItem) (d : ItemData) :
    CallResult Nat × List RawCall :=
  match it.need_flags_set EVERYTHING_REQUEST_DATE_RUN with
  | .ok _ => (.ok d.dateRun, [.getResultDateRun])
  | .err e => (.err e, [])
  | .panicked => (.panicked, [])

/-- EverythingItem::date_recently_changed (ergo.rs 889-892). -/
def EverythingItem.date_recently_changed (it : EverythingItem) (d : ItemData) :
    CallResult Nat × List RawCall :=
  match it.need_flags_set EVERYTHING_REQUEST_DATE_RECENTLY_CHANGED with
  | .ok _ => (.ok d.dateRecentlyChanged, [.getResultDateRecentlyChanged])
  | .err e => (.err e, [])
  | .panicked => (.panicked, [])

/-- EverythingItem::highlighted_filename (ergo.rs 894-897). -/
def EverythingItem.highlighted_filename (it : EverythingItem) (d : ItemData) :
    CallResult (List Char) × List RawCall :=
  match it.need_flags_set EVERYTHING_REQUEST_HIGHLIGHTED_FILE_NAME with
  | .ok _ => (.ok d.hlFilename, [.getResultHighlightedFileName])
  | .err e => (.err e, [])
  | .panicked => (.panicked, [])

/-- EverythingItem::highlighted_path (ergo.rs 899-902). -/
def EverythingItem.highlighted_path (it : EverythingItem) (d : ItemData) :
    CallResult (List Char) × List RawCall :=
  match it.need_flags_set EVERYTHING_REQUEST_HIGHLIGHTED_PATH with
  | .ok _ => (.ok d.hlPath, [.getResultHighlightedPath])
  | .err e => (.err e, [])
  | .panicked => (.panicked, [])

/-- EverythingItem::highlighted_full_path_and_filename (ergo.rs 904-907). -/
def EverythingItem.highlighted_full_path_and_filename (it : EverythingItem)
    (d : ItemData) : CallResult (List Char) × List RawCall :=
  match it.need_flags_set
      EVERYTHING_REQUEST_HIGHLIGHTED_FULL_PATH_AND_FILE_NAME with
  | .ok _ => (.ok d.hlFullPath, [.getResultHighlightedFullPathAndFileName])
  | .err e => (.err e, [])
  | .panicked => (.panicked, [])

/-! ### The ownership and concurrency gate (ergo.rs 75-110, 251-387, 590-601)

The public API of ergo.rs enforces handle uniqueness through the borrow
discipline of its signatures:
* global() returns a static Mutex over EverythingGlobal; locking it is the
  only way to reach an EverythingGlobal value, and a Mutex admits one guard
  at a time;
* EverythingGlobal::searcher takes the guard by unique mutable borrow for
  the whole lifetime of the returned EverythingSearcher, so a second call
  to searcher cannot be made while a searcher is live;
* EverythingSearcher::query takes the searcher by unique mutable borrow for
  the whole lifetime of the returned EverythingResults, so the searcher is
  untouchable (no second query, no drop) while a result set is live.

The events below are the API calls and handle drops; the step function
returns none exactly when the corresponding Rust call would not borrow-check
(or, for the lock, would have to wait).  A trace is legal when the whole run
succeeds. -/

inductive Event where
  | lockGlobal
  | unlockGlobal
  | newSearcher
  | dropSearcher
  | query
  | dropResults
deriving DecidableEq

/-- The instantaneous handle census of the gate. -/
structure GateState where
  locked : Bool
  searchers : Nat
  results : Nat
deriving DecidableEq

def initGate : GateState := ⟨false, 0, 0⟩

/-- One API event.  Preconditions are the Mutex exclusivity and the mutable
borrow rules of the signatures quoted above. -/
def step (s : GateState) : Event → Option GateState
  | .lockGlobal =>
    if s.locked then none else some { s with locked := true }
  | .unlockGlobal =>
    if s.locked ∧ s.searchers = 0 ∧ s.results = 0 then
      some { s with locked := false }
    else none
  | .newSearcher =>
    if s.locked ∧ s.searchers = 0 then
      some { s with searchers := s.searchers + 1 }
    else none
  | .query =>
    if s.searchers ≠ 0 ∧ s.results = 0 then
      some { s with results := s.results + 1 }
    else none
  | .dropResults =>
    if s.results ≠ 0 then some { s with results := s.results - 1 } else none
  | .dropSearcher =>
    if s.searchers ≠ 0 ∧ s.results = 0 then
      some { s with searchers := s.searchers - 1 }
    else none

/-- Run a whole event trace from a state; none when some step is illegal. -/
def run (s : GateState) : List Event → Option GateState
  | [] => some s
  | e :: es =>
    match step s e with
    | none => none
    | some s2 => run s2 es

/-! ### The asynchronous worker thread (ergo.rs 455-512)

The body of the thread spawned by QueryFuture::new is straight-line code; its
effectful steps, in source order, are listed here.  setCompleted is the write
of completed := true on the shared state, wakeWaker the call to waker.wake. -/

inductive WorkerStep where
  | setReplyID
  | createWindow
  | setReplyWindow
  | execQuery
  | waitMessage
  | peekMessage
  | destroyWindow
  | setCompleted
  | wakeWaker
deriving DecidableEq

/-- The effectful steps of the worker thread closure in their source order
(ergo.rs lines 470, 472, 473, 477, 481, 483, 491, 497, 501). -/
def workerSteps : List WorkerStep :=
  [.setReplyID, .createWindow, .setReplyWindow, .execQuery,
   .waitMessage, .peekMessage, .destroyWindow, .setCompleted, .wakeWaker]

/-- a occurs strictly before b in the list (both present). -/
def occursBefore (a b : WorkerStep) : List WorkerStep → Bool
  | [] => false
  | x :: xs =>
    if x = b then false
    else if x = a then xs.contains b
    else occursBefore a b xs

/-! ## Lemmas about the gate transition system -/

theorem run_append (s : GateState) (es fs : List Event) :
    run s (es ++ fs) = (run s es).bind (fun t => run t fs) := by
  induction es generalizing s with
  | nil => simp [run]
  | cons e es ih =>
    simp only [List.cons_append, run]
    cases step s e with
    | none => simp
    | some s2 => simpa using ih s2

theorem step_inv {s t : GateState} {e : Event} (h : step s e = some t)
    (hs : s.searchers ≤ 1 ∧ s.results ≤ 1) :
    t.searchers ≤ 1 ∧ t.results ≤ 1 := by
  obtain ⟨h1, h2⟩ := hs
  cases e <;> simp only [step] at h <;> split at h <;>
    first
      | exact Option.noConfusion h
      | (injection h with h3; subst h3; refine ⟨?_, ?_⟩ <;> simp_all)

theorem run_inv : ∀ (es : List Event) (s t : GateState),
    run s es = some t → s.searchers ≤ 1 ∧ s.results ≤ 1 →
    t.searchers ≤ 1 ∧ t.results ≤ 1 := by
  intro es
  induction es with
  | nil =>
    intro s t h hs
    simp only [run, Option.some.injEq] at h
    simpa [← h] using hs
  | cons e es ih =>
    intro s t h hs
    simp only [run] at h
    cases hst : step s e with
    | none => rw [hst] at h; simp at h
    | some s2 =>
      rw [hst] at h
      exact ih s2 t h (step_inv hst hs)

theorem step_query_pre {s t : GateState} (h : step s .query = some t) :
    s.searchers ≠ 0 ∧ s.results = 0 := by
  by_cases hc : s.searchers ≠ 0 ∧ s.results = 0
  · exact hc
  · simp only [step, if_neg hc] at h
    exact Option.noConfusion h

/-- C1: in every legal sequence of API events, at most one searcher handle and
at most one result-set handle are live at any instant; appending a second
searcher construction (or a second query) while one is live makes the trace
illegal, i.e. the construction fails; and every query event happens at an
instant with exactly one live searcher and no live result set, so queries are
strictly serialized along the trace. -/
theorem gate_handles_unique (es : List Event) (s : GateState)
    (h : run initGate es = some s) :
    s.searchers ≤ 1 ∧ s.results ≤ 1 ∧
    (s.searchers = 1 → run initGate (es ++ [Event.newSearcher]) = none) ∧
    (s.results = 1 → run initGate (es ++ [Event.query]) = none) ∧
    (∀ pre suf, es = pre ++ Event.query :: suf →
      ∃ t, run initGate pre = some t ∧ t.searchers = 1 ∧ t.results = 0) := by
  have hinv := run_inv es initGate s h (by simp [initGate])
  refine ⟨hinv.1, hinv.2, ?_, ?_, ?_⟩
  · intro h1
    rw [run_append, h]
    simp [run, step, h1]
  · intro h1
    rw [run_append, h]
    simp [run, step, h1]
  · intro pre suf hes
    subst hes
    rw [run_append] at h
    cases hpre : run initGate pre with
    | none => rw [hpre] at h; simp at h
    | some t =>
      rw [hpre] at h
      simp only [Option.some_bind] at h
      have htinv := run_inv pre initGate t hpre (by simp [initGate])
      simp only [run] at h
      cases hst : step t .query with
      | none => rw [hst] at h; simp at h
      | some t2 =>
        have hq := step_query_pre hst
        exact ⟨t, rfl, by omega, hq.2⟩

/-- C1 witness: the concrete legal trace lock, searcher, query reaches the
state with one live searcher and one live result set, and there the theorem
yields that constructing a second searcher fails. -/
theorem gate_handles_unique_witness :
    run initGate [Event.lockGlobal, Event.newSearcher, Event.query]
        = some ⟨true, 1, 1⟩ ∧
    run initGate ([Event.lockGlobal, Event.newSearcher, Event.query]
        ++ [Event.newSearcher]) = none := by
  have h : run initGate [Event.lockGlobal, Event.newSearcher, Event.query]
      = some ⟨true, 1, 1⟩ := by decide
  exact ⟨h, (gate_handles_unique _ _ h).2.2.1 rfl⟩

/-- C4: dropping a searcher handle performs the engine reset, which returns
search text to empty, the four match switches to disabled, max results to
unlimited and the offset to zero. -/
theorem searcher_drop_resets_state (s : SearchState) :
    (searcherDrop s).1.search = [] ∧
    (searcherDrop s).1.matchPath = false ∧
    (searcherDrop s).1.matchCase = false ∧
    (searcherDrop s).1.matchWholeWord = false ∧
    (searcherDrop s).1.regex = false ∧
    (searcherDrop s).1.maxResults = u32MAX ∧
    (searcherDrop s).1.offset = 0 ∧
    (searcherDrop s).2 = [RawCall.reset] := by
  simp [searcherDrop, Everything_Reset]

/-- C5: dropping a result-set handle performs no foreign call and leaves the
whole engine search state (search text, match switches, max, offset, sort,
request flags) unchanged; afterwards the owning searcher handle is still live
and a new query is again a legal next event. -/
theorem results_drop_frame (s : SearchState) :
    resultsDrop s = (s, []) ∧
    (resultsDrop s).1.search = s.search ∧
    (resultsDrop s).1.matchPath = s.matchPath ∧
    (resultsDrop s).1.matchCase = s.matchCase ∧
    (resultsDrop s).1.matchWholeWord = s.matchWholeWord ∧
    (resultsDrop s).1.regex = s.regex ∧
    (resultsDrop s).1.maxResults = s.maxResults ∧
    (resultsDrop s).1.offset = s.offset ∧
    (resultsDrop s).1.sortType = s.sortType ∧
    (resultsDrop s).1.requestFlags = s.requestFlags ∧
    (resultsDrop s).2 = [] ∧
    (∀ g : GateState, g.results = 1 →
      step g Event.dropResults = some { g with results := 0 } ∧
      (g.searchers = 1 → step { g with results := 0 } Event.query ≠ none)) := by
  refine ⟨rfl, rfl, rfl, rfl, rfl, rfl, rfl, rfl, rfl, rfl, rfl, ?_⟩
  intro g hg
  constructor
  · simp [step, hg]
  · intro hs
    simp [step, hs]

/-- C5 witness: the theorem applied to a concrete engine state and to the
gate state with one live searcher and one live result set. -/
theorem results_drop_frame_witness :
    resultsDrop ⟨[], false, false, false, false, u32MAX, 0, 1, 3, 0, 0⟩
      = (⟨[], false, false, false, false, u32MAX, 0, 1, 3, 0, 0⟩, []) ∧
    step ⟨true, 1, 1⟩ Event.dropResults = some ⟨true, 1, 0⟩ ∧
    step ⟨true, 1, 0⟩ Event.query ≠ none := by
  have h := results_drop_frame ⟨[], false, false, false, false, u32MAX, 0, 1, 3, 0, 0⟩
  have hg := h.2.2.2.2.2.2.2.2.2.2.2 ⟨true, 1, 1⟩ rfl
  exact ⟨h.1, hg.1, hg.2 rfl⟩

/-! ## The query-protocol-version guard on the count accessors -/

theorem should_use_query_version_2_eq_false_iff (f t : Nat) :
    should_use_query_version_2 f t = false ↔
      (f = defaultRequestFlags ∧ t = defaultSortType) := by
  simp [should_use_query_version_2, is_default_request_flags,
    is_default_sort_type]

/-- C2: each of the four count accessors fails with the
UnsupportedInQueryVersion2 error exactly when the fulfilled request flags of
the result list differ from the default (file name and path) or the fulfilled
sort differs from name ascending; in the failing case the foreign count call
is not among the calls performed; otherwise the accessor returns ok with the
engine counter, zero included. -/
theorem results_counts_version_guard (r : EverythingResults) :
    (r.num_files.1 = .err .UnsupportedInQueryVersion2 ↔
      ¬(r.fulfilledFlags = defaultRequestFlags ∧
        r.fulfilledSort = defaultSortType)) ∧
    (r.num_folders.1 = .err .UnsupportedInQueryVersion2 ↔
      ¬(r.fulfilledFlags = defaultRequestFlags ∧
        r.fulfilledSort = defaultSortType)) ∧
    (r.total_files.1 = .err .UnsupportedInQueryVersion2 ↔
      ¬(r.fulfilledFlags = defaultRequestFlags ∧
        r.fulfilledSort = defaultSortType)) ∧
    (r.total_folders.1 = .err .UnsupportedInQueryVersion2 ↔
      ¬(r.fulfilledFlags = defaultRequestFlags ∧
        r.fulfilledSort = defaultSortType)) ∧
    (r.num_files.1 = .err .UnsupportedInQueryVersion2 →
      RawCall.getNumFileResults ∉ r.num_files.2 ∧
      RawCall.getNumFolderResults ∉ r.num_folders.2 ∧
      RawCall.getTotFileResults ∉ r.total_files.2 ∧
      RawCall.getTotFolderResults ∉ r.total_folders.2) ∧
    (r.fulfilledFlags = defaultRequestFlags ∧
        r.fulfilledSort = defaultSortType →
      r.num_files.1 = .ok r.numFileResults ∧
      r.num_folders.1 = .ok r.numFolderResults ∧
      r.total_files.1 = .ok r.totFileResults ∧
      r.total_folders.1 = .ok r.totFolderResults) := by
  by_cases hd : r.fulfilledFlags = defaultRequestFlags ∧
      r.fulfilledSort = defaultSortType
  · have hv : r.is_query_version_2 = false := by
      simpa [EverythingResults.is_query_version_2,
        EverythingResults.request_flags, EverythingResults.sort_type,
        should_use_query_version_2_eq_false_iff] using hd
    simp [EverythingResults.num_files, EverythingResults.num_folders,
      EverythingResults.total_files, EverythingResults.total_folders, hv, hd]
  · have hv : r.is_query_version_2 = true := by
      rcases Bool.eq_false_or_eq_true r.is_query_version_2 with h | h
      · exact h
      · exact absurd ((should_use_query_version_2_eq_false_iff _ _).mp h) hd
    simp [EverythingResults.num_files, EverythingResults.num_folders,
      EverythingResults.total_files, EverythingResults.total_folders, hv, hd]

/-- C2 witness: the theorem applied to a result list in the default protocol
and to one with a non-default sort. -/
theorem results_counts_version_guard_witness :
    (EverythingResults.num_files ⟨3, 1, 7, 0, 0, 0, 0, 0⟩).1
      = (.ok 7 : CallResult Nat) ∧
    (EverythingResults.num_files ⟨3, 2, 7, 0, 0, 0, 0, 0⟩).1
      = .err .UnsupportedInQueryVersion2 := by
  constructor
  · exact ((results_counts_version_guard ⟨3, 1, 7, 0, 0, 0, 0, 0⟩).2.2.2.2.2
      (by decide)).1
  · exact (results_counts_version_guard ⟨3, 2, 7, 0, 0, 0, 0, 0⟩).1.mpr
      (by decide)

/-! ## Flag-guard helper lemmas for the item accessors -/

theorem need_flags_set_ok {it : EverythingItem} {m : Nat}
    (h : it.request_flags &&& m = m) : it.need_flags_set m = .ok () := by
  simp [EverythingItem.need_flags_set, h]

theorem need_flags_set_err {it : EverythingItem} {m : Nat}
    (h : ¬it.request_flags &&& m = m) :
    it.need_flags_set m = .err (.InvalidRequest (.RequestFlagsNotSet m)) := by
  simp [EverythingItem.need_flags_set, h]

/-- C6: for a folder item whose fulfilled bitmask has the size bit, the size
accessor returns ok 0 for every bitmask, in particular both with and without
the attributes bit, although the engine reports 0 in the first case and the
-1 sentinel in the second. -/
theorem size_folder_normalized (it : EverythingItem) (d : ItemData)
    (hf : d.isFolder = true)
    (hs : it.request_flags &&& EVERYTHING_REQUEST_SIZE =
      EVERYTHING_REQUEST_SIZE) :
    (it.size d).1 = .ok 0 := by
  by_cases ha : it.request_flags &&& EVERYTHING_REQUEST_ATTRIBUTES =
      EVERYTHING_REQUEST_ATTRIBUTES
  · simp [EverythingItem.size, need_flags_set_ok hs, rawResultSize, hf, ha]
  · simp [EverythingItem.size, need_flags_set_ok hs, rawResultSize, hf, ha]

/-- C6 witness: the theorem applied to a concrete folder item once with the
size bit only and once with size plus attributes; the two engine sentinels
differ but both normalize to ok 0. -/
theorem size_folder_normalized_witness :
    (EverythingItem.size ⟨0, 0x10⟩
      ⟨true, [], [], [], [], [], [], [], [], 0, 0, 0, 0, 0, 0, 0, 0⟩).1
        = .ok 0 ∧
    (EverythingItem.size ⟨0, 0x110⟩
      ⟨true, [], [], [], [], [], [], [], [], 0, 0, 0, 0, 0, 0, 0, 0⟩).1
        = .ok 0 ∧
    rawResultSize ⟨true, [], [], [], [], [], [], [], [], 0, 0, 0, 0, 0, 0, 0, 0⟩
      0x10 = -1 ∧
    rawResultSize ⟨true, [], [], [], [], [], [], [], [], 0, 0, 0, 0, 0, 0, 0, 0⟩
      0x110 = 0 := by
  refine ⟨size_folder_normalized ⟨0, 0x10⟩ _ rfl (by decide),
    size_folder_normalized ⟨0, 0x110⟩ _ rfl (by decide), by decide, by decide⟩

/-! ## The zero-or-IPC-error pattern -/

/-- C8: the zero-or-IPC-error pattern shared by get_run_count and the four
version getters: a non-zero raw value is returned as success; a zero raw
value with last error reading no-error is ok 0 (a true success value); a zero
raw value with last error reading IPC-unavailable is the Ipc error; a zero
raw value with any other last error is an unreachable defect that panics
rather than being returned. -/
theorem zero_or_ipc_error_spec (n : Nat) (e : LastError) :
    (n ≠ 0 →
      zero_or_ipc_error n e = .ok n ∧
      get_run_count n e = .ok n ∧ get_major_version n e = .ok n ∧
      get_minor_version n e = .ok n ∧ get_revision n e = .ok n ∧
      get_build_number n e = .ok n) ∧
    (n = 0 → e = .EVERYTHING_OK →
      zero_or_ipc_error n e = .ok 0 ∧
      get_run_count n e = .ok 0 ∧ get_major_version n e = .ok 0 ∧
      get_minor_version n e = .ok 0 ∧ get_revision n e = .ok 0 ∧
      get_build_number n e = .ok 0) ∧
    (n = 0 → e = .EVERYTHING_ERROR_IPC →
      zero_or_ipc_error n e = .ipcFail ∧
      get_run_count n e = .err .Ipc ∧ get_major_version n e = .err .Ipc ∧
      get_minor_version n e = .err .Ipc ∧ get_revision n e = .err .Ipc ∧
      get_build_number n e = .err .Ipc) ∧
    (n = 0 → ¬e = .EVERYTHING_OK → ¬e = .EVERYTHING_ERROR_IPC →
      zero_or_ipc_error n e = .defect ∧
      get_run_count n e = .panicked ∧ get_major_version n e = .panicked ∧
      get_minor_version n e = .panicked ∧ get_revision n e = .panicked ∧
      get_build_number n e = .panicked) := by
  refine ⟨?_, ?_, ?_, ?_⟩
  · intro hn
    simp [zero_or_ipc_error, hn, get_run_count, get_major_version,
      get_minor_version, get_revision, get_build_number, ok_or_ipc]
  · intro hn he
    subst hn; subst he
    simp [zero_or_ipc_error, get_run_count, get_major_version,
      get_minor_version, get_revision, get_build_number, ok_or_ipc]
  · intro hn he
    subst hn; subst he
    simp [zero_or_ipc_error, get_run_count, get_major_version,
      get_minor_version, get_revision, get_build_number, ok_or_ipc]
  · intro hn h1 h2
    subst hn
    cases e <;> simp_all [zero_or_ipc_error, get_run_count,
      get_major_version, get_minor_version, get_revision, get_build_number,
      ok_or_ipc]

/-- C8 witness: the theorem applied at the four concrete branch inputs. -/
theorem zero_or_ipc_error_spec_witness :
    get_run_count 5 .EVERYTHING_OK = .ok 5 ∧
    get_run_count 0 .EVERYTHING_OK = .ok 0 ∧
    get_run_count 0 .EVERYTHING_ERROR_IPC = .err .Ipc ∧
    get_run_count 0 .EVERYTHING_ERROR_MEMORY = .panicked := by
  refine ⟨((zero_or_ipc_error_spec 5 .EVERYTHING_OK).1 (by decide)).2.1,
    ((zero_or_ipc_error_spec 0 .EVERYTHING_OK).2.1 rfl rfl).2.1,
    ((zero_or_ipc_error_spec 0 .EVERYTHING_ERROR_IPC).2.2.1 rfl rfl).2.1,
    ((zero_or_ipc_error_spec 0 .EVERYTHING_ERROR_MEMORY).2.2.2 rfl
      (by decide) (by decide)).2.1⟩

/-! ## The order of the asynchronous worker steps -/

/-- C9 counterexample: in the worker thread spawned by QueryFuture::new the
window destruction happens strictly before the completion flag is set and the
waker is woken, so the claimed order (signal completion, then destroy the
window; destruction never precedes signalling) is false on the code. -/
theorem worker_destroy_before_signal :
    occursBefore .destroyWindow .setCompleted workerSteps = true ∧
    occursBefore .setCompleted .destroyWindow workerSteps = false ∧
    occursBefore .wakeWaker .destroyWindow workerSteps = false := by
  decide

/-- C9 amended: the worker thread waits for exactly one completion message,
then destroys its message-only window, and only then signals the shared
completion flag and wakes any suspended caller task; the signalling never
precedes the window destruction. -/
theorem worker_step_order :
    occursBefore .waitMessage .peekMessage workerSteps = true ∧
    occursBefore .peekMessage .destroyWindow workerSteps = true ∧
    occursBefore .destroyWindow .setCompleted workerSteps = true ∧
    occursBefore .setCompleted .wakeWaker workerSteps = true ∧
    workerSteps.count .waitMessage = 1 ∧
    workerSteps.count .setCompleted = 1 ∧
    workerSteps.count .destroyWindow = 1 := by
  decide

/-! ## The two-phase full-path retrieval -/

theorem filepath_ok {it : EverythingItem} {d : ItemData}
    (hp : it.request_flags &&&
        (EVERYTHING_REQUEST_PATH ||| EVERYTHING_REQUEST_FILE_NAME) =
      EVERYTHING_REQUEST_PATH ||| EVERYTHING_REQUEST_FILE_NAME)
    (hL : d.fullPath ≠ []) :
    it.filepath d = (.ok d.fullPath,
      [.getResultFullPathNameSizeHint, .getResultFullPathName]) := by
  have hL0 : d.fullPath.length ≠ 0 := by
    simpa [List.length_eq_zero] using hL
  simp [EverythingItem.filepath, need_flags_set_ok hp,
    rawFullPathNameSizeHint, hL0, rawFullPathNameFill]

theorem full_path_name_ok {it : EverythingItem} {d : ItemData}
    {max_len : Option Nat}
    (hf : it.request_flags &&& EVERYTHING_REQUEST_FULL_PATH_AND_FILE_NAME =
      EVERYTHING_REQUEST_FULL_PATH_AND_FILE_NAME)
    (hL : d.fullPath ≠ []) (hcap : d.fullPath.length < u32MAX)
    (hmax : d.fullPath.length + 1 ≤ max_len.getD (d.fullPath.length + 1)) :
    it.full_path_name max_len d = (.ok d.fullPath,
      [.getResultFullPathNameSizeHint, .getResultFullPathName]) := by
  have hL0 : d.fullPath.length ≠ 0 := by
    simpa [List.length_eq_zero] using hL
  have hbuf : min (d.fullPath.length + 1) (max_len.getD u32MAX)
      = d.fullPath.length + 1 := by
    cases max_len with
    | none => exact Nat.min_eq_left (by simpa [Option.getD] using hcap)
    | some m => exact Nat.min_eq_left (by simpa [Option.getD] using hmax)
  simp [EverythingItem.full_path_name, need_flags_set_ok hf,
    rawFullPathNameSizeHint, hL0, hbuf, rawFullPathNameFill]

/-- C7 counterexample: a stable result set (the same stored full path for
both calls) with a ten character path and max_len five: the probe reports
eleven, the capped buffer holds five, the fill reports four, and the
assertion that the probe equals the fill plus one fails, panicking instead
of returning; so the claim that the assertion never fails for every max_len
argument is false on the code. -/
theorem full_path_truncation_assert_fails :
    (EverythingItem.full_path_name ⟨0, 0x7⟩ (some 5)
      ⟨false, [], [], ['a','b','c','d','e','f','g','h','i','j'],
        [], [], [], [], [], 0, 0, 0, 0, 0, 0, 0, 0⟩).1
      = .panicked := by
  decide

/-- C7 amended: for a stable result set the probe-then-fill pair in filepath
always reports a fill length exactly one less than the probe, and in
full_path_name it does so whenever the caller cap does not truncate the
buffer below the probe (max_len absent or at least the probed size, paths
being nonempty and shorter than the u32 limit); in those cases the assertion
holds and the accessor returns the full path. -/
theorem full_path_two_phase (it : EverythingItem) (d : ItemData)
    (max_len : Option Nat)
    (hp : it.request_flags &&&
        (EVERYTHING_REQUEST_PATH ||| EVERYTHING_REQUEST_FILE_NAME) =
      EVERYTHING_REQUEST_PATH ||| EVERYTHING_REQUEST_FILE_NAME)
    (hf : it.request_flags &&& EVERYTHING_REQUEST_FULL_PATH_AND_FILE_NAME =
      EVERYTHING_REQUEST_FULL_PATH_AND_FILE_NAME)
    (hL : d.fullPath ≠ []) (hcap : d.fullPath.length < u32MAX)
    (hmax : d.fullPath.length + 1 ≤ max_len.getD (d.fullPath.length + 1)) :
    (it.filepath d).1 = .ok d.fullPath ∧
    (it.full_path_name max_len d).1 = .ok d.fullPath := by
  rw [filepath_ok hp hL, full_path_name_ok hf hL hcap hmax]
  exact ⟨rfl, rfl⟩

/-- C7 witness: the amended theorem applied to a concrete item with all
request bits and a ten character path, with max_len absent and with a cap of
eleven characters. -/
theorem full_path_two_phase_witness :
    (EverythingItem.filepath ⟨0, 0x7⟩
      ⟨false, [], [], ['a','b','c','d','e','f','g','h','i','j'],
        [], [], [], [], [], 0, 0, 0, 0, 0, 0, 0, 0⟩).1
      = .ok ['a','b','c','d','e','f','g','h','i','j'] ∧
    (EverythingItem.full_path_name ⟨0, 0x7⟩ none
      ⟨false, [], [], ['a','b','c','d','e','f','g','h','i','j'],
        [], [], [], [], [], 0, 0, 0, 0, 0, 0, 0, 0⟩).1
      = .ok ['a','b','c','d','e','f','g','h','i','j'] ∧
    (EverythingItem.full_path_name ⟨0, 0x7⟩ (some 11)
      ⟨false, [], [], ['a','b','c','d','e','f','g','h','i','j'],
        [], [], [], [], [], 0, 0, 0, 0, 0, 0, 0, 0⟩).1
      = .ok ['a','b','c','d','e','f','g','h','i','j'] := by
  refine ⟨(full_path_two_phase ⟨0, 0x7⟩ _ none (by decide) (by decide)
      (by decide) (by decide) (by decide)).1,
    (full_path_two_phase ⟨0, 0x7⟩ _ none (by decide) (by decide)
      (by decide) (by decide) (by decide)).2,
    (full_path_two_phase ⟨0, 0x7⟩ _ (some 11) (by decide) (by decide)
      (by decide) (by decide) (by decide)).2⟩

/-! ## The exact bit-membership guard of the field accessors -/

/-- The exact bit-membership guard contract of a field accessor result: with
any required bit absent from the snapshot bitmask it is the not-requested
error carrying the required mask, with no foreign call performed; with all
required bits present it is ok of the expected value and at least one
foreign call was performed. -/
def accessorGuardSpec {α : Type} (res : CallResult α × List RawCall)
    (m : Nat) (it : EverythingItem) (v : α) : Prop :=
  (¬it.request_flags &&& m = m →
    res = (.err (.InvalidRequest (.RequestFlagsNotSet m)), [])) ∧
  (it.request_flags &&& m = m → res.1 = .ok v ∧ res.2 ≠ [])

theorem simple_guard {α : Type} (it : EverythingItem) (m : Nat) (v : α)
    (c : RawCall) (res : CallResult α × List RawCall)
    (hres : res = match it.need_flags_set m with
      | .ok _ => (.ok v, [c])
      | .err e => (.err e, [])
      | .panicked => (.panicked, [])) :
    accessorGuardSpec res m it v := by
  subst hres
  constructor
  · intro h
    simp [need_flags_set_err h]
  · intro h
    simp [need_flags_set_ok h]

theorem size_guard (it : EverythingItem) (d : ItemData) :
    accessorGuardSpec (it.size d) EVERYTHING_REQUEST_SIZE it
      (if d.isFolder then 0 else d.fileSize) := by
  constructor
  · intro h
    simp [EverythingItem.size, need_flags_set_err h]
  · intro h
    by_cases hf : d.isFolder <;>
      by_cases ha : it.request_flags &&& EVERYTHING_REQUEST_ATTRIBUTES =
        EVERYTHING_REQUEST_ATTRIBUTES <;>
      simp [EverythingItem.size, need_flags_set_ok h, rawResultSize, hf, ha]

theorem filepath_guard (it : EverythingItem) (d : ItemData)
    (hL : d.fullPath ≠ []) :
    accessorGuardSpec (it.filepath d)
      (EVERYTHING_REQUEST_PATH ||| EVERYTHING_REQUEST_FILE_NAME) it
      d.fullPath := by
  constructor
  · intro h
    simp [EverythingItem.filepath, need_flags_set_err h]
  · intro h
    rw [filepath_ok h hL]
    simp

theorem full_path_name_guard (it : EverythingItem) (d : ItemData)
    (max_len : Option Nat) (hL : d.fullPath ≠ [])
    (hcap : d.fullPath.length < u32MAX)
    (hmax : d.fullPath.length + 1 ≤ max_len.getD (d.fullPath.length + 1)) :
    accessorGuardSpec (it.full_path_name max_len d)
      EVERYTHING_REQUEST_FULL_PATH_AND_FILE_NAME it d.fullPath := by
  constructor
  · intro h
    simp [EverythingItem.full_path_name, need_flags_set_err h]
  · intro h
    rw [full_path_name_ok h hL hcap hmax]
    simp

/-- C3 counterexample: the claim also asserts that every accessor returns
success whenever its bits are present; for full_path_name this is false: with
the whole bitmask fulfilled but max_len three, the call proceeds past the
guard and then panics on the internal assertion instead of returning
success. -/
theorem item_accessor_success_ce :
    ((⟨0, 0xFFFF⟩ : EverythingItem).request_flags &&&
        EVERYTHING_REQUEST_FULL_PATH_AND_FILE_NAME =
      EVERYTHING_REQUEST_FULL_PATH_AND_FILE_NAME) ∧
    (EverythingItem.full_path_name ⟨0, 0xFFFF⟩ (some 3)
      ⟨false, [], [], ['a','b','c','d','e','f','g','h','i','j'],
        [], [], [], [], [], 0, 0, 0, 0, 0, 0, 0, 0⟩).1
      = .panicked := by
  decide

/-- C3 amended: for every snapshot bitmask, every field accessor returns the
not-requested error, with no foreign call, exactly when some required bit is
absent, and proceeds to the foreign calls exactly when the bits are present;
in the present case it returns ok of the engine value, except that
full_path_name additionally requires the caller cap max_len not to truncate
the buffer below the probed size (and the two full-path accessors a nonempty
path below the u32 limit), otherwise an internal assertion panics. -/
theorem item_accessor_flag_guard (it : EverythingItem) (d : ItemData)
    (max_len : Option Nat) (hL : d.fullPath ≠ [])
    (hcap : d.fullPath.length < u32MAX)
    (hmax : d.fullPath.length + 1 ≤ max_len.getD (d.fullPath.length + 1)) :
    accessorGuardSpec (it.filename d) EVERYTHING_REQUEST_FILE_NAME it
      d.filename ∧
    accessorGuardSpec (it.path d) EVERYTHING_REQUEST_PATH it d.path ∧
    accessorGuardSpec (it.filepath d)
      (EVERYTHING_REQUEST_PATH ||| EVERYTHING_REQUEST_FILE_NAME) it
      d.fullPath ∧
    accessorGuardSpec (it.full_path_name max_len d)
      EVERYTHING_REQUEST_FULL_PATH_AND_FILE_NAME it d.fullPath ∧
    accessorGuardSpec (it.extension d) EVERYTHING_REQUEST_EXTENSION it
      d.extension ∧
    accessorGuardSpec (it.size d) EVERYTHING_REQUEST_SIZE it
      (if d.isFolder then 0 else d.fileSize) ∧
    accessorGuardSpec (it.date_created d) EVERYTHING_REQUEST_DATE_CREATED it
      d.dateCreated ∧
    accessorGuardSpec (it.date_modified d) EVERYTHING_REQUEST_DATE_MODIFIED it
      d.dateModified ∧
    accessorGuardSpec (it.date_accessed d) EVERYTHING_REQUEST_DATE_ACCESSED it
      d.dateAccessed ∧
    accessorGuardSpec (it.attributes d) EVERYTHING_REQUEST_ATTRIBUTES it
      d.attrBits ∧
    accessorGuardSpec (it.file_list_filename d)
      EVERYTHING_REQUEST_FILE_LIST_FILE_NAME it d.fileListFilename ∧
    accessorGuardSpec (it.run_count d) EVERYTHING_REQUEST_RUN_COUNT it
      d.runCount ∧
    accessorGuardSpec (it.date_run d) EVERYTHING_REQUEST_DATE_RUN it
      d.dateRun ∧
    accessorGuardSpec (it.date_recently_changed d)
      EVERYTHING_REQUEST_DATE_RECENTLY_CHANGED it d.dateRecentlyChanged ∧
    accessorGuardSpec (it.highlighted_filename d)
      EVERYTHING_REQUEST_HIGHLIGHTED_FILE_NAME it d.hlFilename ∧
    accessorGuardSpec (it.highlighted_path d)
      EVERYTHING_REQUEST_HIGHLIGHTED_PATH it d.hlPath ∧
    accessorGuardSpec (it.highlighted_full_path_and_filename d)
      EVERYTHING_REQUEST_HIGHLIGHTED_FULL_PATH_AND_FILE_NAME it
      d.hlFullPath := by
  refine ⟨simple_guard it _ _ .getResultFileName _ rfl,
    simple_guard it _ _ .getResultPath _ rfl,
    filepath_guard it d hL,
    full_path_name_guard it d max_len hL hcap hmax,
    simple_guard it _ _ .getResultExtension _ rfl,
    size_guard it d,
    simple_guard it _ _ .getResultDateCreated _ rfl,
    simple_guard it _ _ .getResultDateModified _ rfl,
    simple_guard it _ _ .getResultDateAccessed _ rfl,
    simple_guard it _ _ .getResultAttributes _ rfl,
    simple_guard it _ _ .getResultFileListFileName _ rfl,
    simple_guard it _ _ .getResultRunCount _ rfl,
    simple_guard it _ _ .getResultDateRun _ rfl,
    simple_guard it _ _ .getResultDateRecentlyChanged _ rfl,
    simple_guard it _ _ .getResultHighlightedFileName _ rfl,
    simple_guard it _ _ .getResultHighlightedPath _ rfl,
    simple_guard it _ _ .getResultHighlightedFullPathAndFileName _ rfl⟩

/-- C3 witness: the amended theorem applied to a concrete item whose bitmask
has only the file-name and size bits, checking one positive and one negative
accessor on each side of the guard. -/
theorem item_accessor_flag_guard_witness :
    (EverythingItem.filename ⟨0, 0x11⟩
      ⟨false, ['x'], [], ['p'], [], [], [], [], [], 9, 0, 0, 0, 0, 0, 0, 0⟩).1
      = .ok ['x'] ∧
    (EverythingItem.size ⟨0, 0x11⟩
      ⟨false, ['x'], [], ['p'], [], [], [], [], [], 9, 0, 0, 0, 0, 0, 0, 0⟩).1
      = .ok 9 ∧
    EverythingItem.path ⟨0, 0x11⟩
      ⟨false, ['x'], [], ['p'], [], [], [], [], [], 9, 0, 0, 0, 0, 0, 0, 0⟩
      = (.err (.InvalidRequest
          (.RequestFlagsNotSet EVERYTHING_REQUEST_PATH)), []) := by
  have h := item_accessor_flag_guard ⟨0, 0x11⟩
    ⟨false, ['x'], [], ['p'], [], [], [], [], [], 9, 0, 0, 0, 0, 0, 0, 0⟩
    none (by decide) (by decide) (by decide)
  refine ⟨?_, ?_, ?_⟩
  · exact (h.1.2 (by decide)).1
  · have := (h.2.2.2.2.2.1.2 (by decide)).1
    simpa using this
  · exact h.2.1.1 (by decide)

/-! ## The iterator over a result list -/

theorem toListAux_spec (fuel : Nat) :
    ∀ it : Iter, it.length - it.next_index = fuel →
    Iter.toListAux fuel it =
      (List.range fuel).map
        (fun k => (⟨it.next_index + k, it.request_flags⟩ : EverythingItem)) := by
  induction fuel with
  | zero =>
    intro it _
    simp [Iter.toListAux]
  | succ n ih =>
    intro it h
    have hlt : it.next_index < it.length := by omega
    simp only [Iter.toListAux, Iter.next, if_pos hlt]
    rw [ih { it with next_index := it.next_index + 1 } (by simp; omega)]
    rw [List.range_succ_eq_map, List.map_cons, List.map_map]
    refine congrArg₂ _ (by simp) ?_
    have hfun : ((fun k => (⟨it.next_index + k, it.request_flags⟩ :
          EverythingItem)) ∘ Nat.succ)
        = fun k => (⟨it.next_index + 1 + k, it.request_flags⟩ :
          EverythingItem) := by
      funext k
      show (⟨it.next_index + Nat.succ k, it.request_flags⟩ : EverythingItem)
        = ⟨it.next_index + 1 + k, it.request_flags⟩
      exact congrArg (fun m => (⟨m, it.request_flags⟩ : EverythingItem))
        (by omega)
    rw [hfun]

theorem iter_toList (r : EverythingResults) :
    r.iter.toList =
      (List.range r.numResults).map
        (fun k => (⟨k, r.fulfilledFlags⟩ : EverythingItem)) := by
  have h := toListAux_spec r.numResults r.iter
    (by simp [EverythingResults.iter, EverythingResults.len,
      EverythingResults.num, EverythingResults.request_flags])
  simpa [Iter.toList, EverythingResults.iter, EverythingResults.len,
    EverythingResults.num, EverythingResults.request_flags] using h

/-- C10: on a result list with n visible results, at i yields exactly the
item with index i and the fulfilled-flags snapshot for every i below n, and
none for every i at or above n; the iterator yields exactly n items, with
indices 0 up to n - 1 in increasing order, and every yielded item carries the
fulfilled-flags snapshot of the result list. -/
theorem results_at_iter_spec (r : EverythingResults) (i : Nat) :
    (i < r.numResults →
      r.at i = some ⟨i, r.fulfilledFlags⟩) ∧
    (r.numResults ≤ i → r.at i = none) ∧
    r.iter.toList =
      (List.range r.numResults).map
        (fun k => (⟨k, r.fulfilledFlags⟩ : EverythingItem)) ∧
    (∀ x ∈ r.iter.toList, x.request_flags = r.fulfilledFlags) := by
  refine ⟨?_, ?_, iter_toList r, ?_⟩
  · intro h
    simp [EverythingResults.at, EverythingResults.iter, Iter.nth,
      EverythingResults.len, EverythingResults.num,
      EverythingResults.request_flags, h]
  · intro h
    have hn : ¬i < r.numResults := by omega
    simp [EverythingResults.at, EverythingResults.iter, Iter.nth,
      EverythingResults.len, EverythingResults.num,
      EverythingResults.request_flags, hn]
  · intro x hx
    rw [iter_toList r] at hx
    simp only [List.mem_map, List.mem_range] at hx
    obtain ⟨k, _, rfl⟩ := hx
    rfl

/-- C10 witness: the theorem applied to a concrete result list with two
visible results, at an index inside and an index outside the range. -/
theorem results_at_iter_spec_witness :
    EverythingResults.at ⟨3, 1, 0, 0, 2, 0, 0, 0⟩ 1 = some ⟨1, 3⟩ ∧
    EverythingResults.at ⟨3, 1, 0, 0, 2, 0, 0, 0⟩ 5 = none ∧
    (EverythingResults.iter ⟨3, 1, 0, 0, 2, 0, 0, 0⟩).toList
      = [⟨0, 3⟩, ⟨1, 3⟩] := by
  refine ⟨(results_at_iter_spec ⟨3, 1, 0, 0, 2, 0, 0, 0⟩ 1).1 (by decide),
    (results_at_iter_spec ⟨3, 1, 0, 0, 2, 0, 0, 0⟩ 5).2.1 (by decide),
    ?_⟩
  rw [(results_at_iter_spec ⟨3, 1, 0, 0, 2, 0, 0, 0⟩ 0).2.2.1]
  decide

end EverythingSdk
